import Mathlib

/-!
# Shallow embedding of `pool-monitor.py`

The program fetches a pool status record (JSON) from a remote API, compares
the heater mode `heaters[0].mode` with the one persisted in a local state
file, sends one alert email when the mode goes 0 → 1, and then persists the
current record.  Network results, the clock, and the state-file contents are
inputs of the embedded run function; outbound emails and the final file
contents are its outputs.  `print` calls to stdout are not modelled.
-/

namespace PoolMonitor

/-- JSON values as produced by `response.json()` / `json.load`.  Numbers are
modelled as integers (every value the program compares against is an `int`). -/
inductive Json where
  | null
  | bool (b : Bool)
  | num (n : Int)
  | str (s : String)
  | arr (elems : List Json)
  | obj (fields : List (String × Json))

/-- Python `d[key]` on a parsed JSON value: a lookup that succeeds only on an
object containing the key; any failure (`KeyError`/`TypeError`) is `none`. -/
def Json.lookup : Json → String → Option Json
  | .obj fields, key => fields.lookup key
  | _, _ => none

/-- `state['heaters'][0]['mode']` (lines 69 and 77): `none` iff the chain of
subscripts raises (`KeyError`, `IndexError` or `TypeError`). -/
def getHeaterMode (state : Json) : Option Json :=
  match state.lookup "heaters" with
  | some (.arr (h :: _)) => h.lookup "mode"
  | _ => none

/-- Python `x == n` for an `int` literal `n` and a JSON-decoded `x`:
`True`/`False` compare equal to `1`/`0`, other non-numeric values compare
unequal to every integer. -/
def pyEqInt : Json → Int → Bool
  | .num m, n => m == n
  | .bool b, n => (if b then (1 : Int) else 0) == n
  | _, _ => false

/-- Escaping of one character inside a JSON string literal. -/
def escapeChar (c : Char) : String :=
  if c = '"' then "\\\""
  else if c = '\\' then "\\\\"
  else if c = '\n' then "\\n"
  else if c = '\t' then "\\t"
  else if c = '\r' then "\\r"
  else String.singleton c

/-- Escaping of a JSON string literal's contents. -/
def escapeString (s : String) : String :=
  String.join (s.toList.map escapeChar)

/-- `n` spaces, for `indent=2` pretty printing. -/
def spaces (n : Nat) : String :=
  String.mk (List.replicate n ' ')

mutual

/-- `json.dumps(·, indent=2)` at a given current indentation. -/
def dumpsAt : Nat → Json → String
  | _, .null => "null"
  | _, .bool b => if b then "true" else "false"
  | _, .num n => toString n
  | _, .str s => "\"" ++ escapeString s ++ "\""
  | ind, .arr elems =>
      match elems with
      | [] => "[]"
      | e :: es => "[\n" ++ dumpsElems (ind + 2) (e :: es) ++ "\n" ++ spaces ind ++ "]"
  | ind, .obj fields =>
      match fields with
      | [] => "\x7b\x7d"
      | f :: fs => "\x7b\n" ++ dumpsFields (ind + 2) (f :: fs) ++ "\n" ++ spaces ind ++ "\x7d"

/-- Array elements, one per line, comma separated. -/
def dumpsElems : Nat → List Json → String
  | _, [] => ""
  | ind, [e] => spaces ind ++ dumpsAt ind e
  | ind, e :: e2 :: es => spaces ind ++ dumpsAt ind e ++ ",\n" ++ dumpsElems ind (e2 :: es)

/-- Object fields, one `"key": value` per line, comma separated. -/
def dumpsFields : Nat → List (String × Json) → String
  | _, [] => ""
  | ind, [(k, v)] => spaces ind ++ "\"" ++ escapeString k ++ "\": " ++ dumpsAt ind v
  | ind, (k, v) :: f2 :: fs =>
      spaces ind ++ "\"" ++ escapeString k ++ "\": " ++ dumpsAt ind v ++ ",\n"
        ++ dumpsFields ind (f2 :: fs)

end

/-- `json.dumps(x, indent=2)` for a JSON value. -/
def dumps (j : Json) : String := dumpsAt 0 j

/-- `json.dumps(x, indent=2)` where `x` may be Python `None`. -/
def dumpsOpt : Option Json → String
  | none => "null"
  | some j => dumps j

/-- The three environment variables read at startup (lines 14-16). -/
structure Config where
  poolApiCode : String
  emailTo : String
  sendgridApiKey : String
  deriving DecidableEq

/-- `os.environ['POOL_API_CODE']`, `os.environ['EMAIL_TO']`,
`os.environ['SENDGRID_API_KEY']`: evaluated in order at import time, each
raising `KeyError` if absent, so the result is `none` if any is missing. -/
def loadConfig (osEnv : String → Option String) : Option Config :=
  match osEnv "POOL_API_CODE", osEnv "EMAIL_TO", osEnv "SENDGRID_API_KEY" with
  | some a, some b, some c => some ⟨a, b, c⟩
  | _, _, _ => none

/-- A UTC wall-clock reading, as consumed by `datetime.utcnow()`. -/
structure UtcTime where
  year : Nat
  month : Nat
  day : Nat
  hour : Nat
  minute : Nat
  second : Nat
  deriving DecidableEq

/-- Zero-padding to two digits, as `%m`, `%d`, `%H`, `%M`, `%S` do. -/
def pad2 (n : Nat) : String :=
  if n < 10 then "0" ++ toString n else toString n

/-- Zero-padding to four digits, as `%Y` does. -/
def pad4 (n : Nat) : String :=
  if n < 10 then "000" ++ toString n
  else if n < 100 then "00" ++ toString n
  else if n < 1000 then "0" ++ toString n
  else toString n

/-- `datetime.utcnow().strftime('%Y-%m-%d %H:%M:%S UTC')` (line 35). -/
def strftimeUTC (t : UtcTime) : String :=
  pad4 t.year ++ "-" ++ pad2 t.month ++ "-" ++ pad2 t.day ++ " "
    ++ pad2 t.hour ++ ":" ++ pad2 t.minute ++ ":" ++ pad2 t.second ++ " UTC"

/-- The outbound message handed to the SendGrid API (lines 50-60). -/
structure EmailMessage where
  toAddr : String
  fromAddr : String
  subject : String
  body : String
  deriving DecidableEq

/-- `send_email_alert(previous_state, current_state)` (lines 33-64): builds
the plaintext body and the SendGrid payload.  `previous_state` may be Python
`None`.  The clock reading is passed explicitly. -/
def send_email_alert (cfg : Config) (now : UtcTime)
    (previous_state : Option Json) (current_state : Json) : EmailMessage :=
  let timestamp := strftimeUTC now
  { toAddr := cfg.emailTo
    fromAddr := cfg.emailTo
    subject := "🔥 ALERT: Pool Heater Turned ON"
    body := "Pool gas heater has turned ON at " ++ timestamp
      ++ "\n\n=== PREVIOUS STATE (Heater OFF) ===\n" ++ dumpsOpt previous_state
      ++ "\n\n=== CURRENT STATE (Heater ON) ===\n" ++ dumps current_state }

/-- Contents of `previous_state.json` before/after a run: absent, present but
zero-length, present but not valid JSON, or present and parsing to a value. -/
inductive FileState where
  | missing
  | empty
  | malformed
  | stored (record : Json)

/-- The ways a run can terminate with a non-zero exit (uncaught exception). -/
inductive RunError where
  | configError
  | fetchError
  | keyError
  | parseError
  | sendError
  deriving DecidableEq

/-- External-world inputs of one run: the outcome of the status fetch
(`none` models a transport failure or non-success HTTP status raised by
`raise_for_status`, `some` the parsed response body), whether the SendGrid
call would succeed, and the clock. -/
structure Env where
  fetchResult : Option Json
  sendOk : Bool
  now : UtcTime

/-- Observable outcome of one run: exit status, final state-file contents,
and the outbound email requests made (in order). -/
structure RunOutcome where
  result : Except RunError Unit
  file : FileState
  emails : List EmailMessage

/-- Lines 73-82: read the previous state.  Returns `(previous_mode,
previous_state)`; the sentinel pair is `(-1, None)` when the file is missing
or zero-length; a present file that fails to parse raises (`parseError`), and
a parsed record without `heaters[0].mode` raises (`keyError`). -/
def load_previous_state (file : FileState) : Except RunError (Json × Option Json) :=
  match file with
  | .missing => .ok (.num (-1), none)
  | .empty => .ok (.num (-1), none)
  | .malformed => .error .parseError
  | .stored j =>
      match getHeaterMode j with
      | some m => .ok (m, some j)
      | none => .error .keyError

/-- `main()` (lines 66-96): fetch, extract current mode, load previous state,
decide, optionally send the alert, persist.  Every uncaught exception aborts
the run at that point, leaving the file as it was. -/
def main (cfg : Config) (env : Env) (file : FileState) : RunOutcome :=
  match env.fetchResult with
  | none => ⟨.error .fetchError, file, []⟩
  | some current_state =>
    match getHeaterMode current_state with
    | none => ⟨.error .keyError, file, []⟩
    | some current_mode =>
      match load_previous_state file with
      | .error e => ⟨.error e, file, []⟩
      | .ok (previous_mode, previous_state) =>
        if pyEqInt previous_mode 0 && pyEqInt current_mode 1 then
          let msg := send_email_alert cfg env.now previous_state current_state
          if env.sendOk then
            ⟨.ok (), .stored current_state, [msg]⟩
          else
            ⟨.error .sendError, file, [msg]⟩
        else
          ⟨.ok (), .stored current_state, []⟩

/-- The script as a whole: environment-variable reads at import time (lines
14-16) happen before `main()`; a missing variable aborts before any fetch,
comparison, notification or state write. -/
def program (osEnv : String → Option String) (env : Env) (file : FileState) : RunOutcome :=
  match loadConfig osEnv with
  | none => ⟨.error .configError, file, []⟩
  | some cfg => main cfg env file

/-- The pair `(previous_mode, current_mode)` reached by the comparison on
line 85, when the run gets that far. -/
def runModes (env : Env) (file : FileState) : Option (Json × Json) :=
  match env.fetchResult with
  | none => none
  | some current_state =>
    match getHeaterMode current_state with
    | none => none
    | some current_mode =>
      match load_previous_state file with
      | .error _ => none
      | .ok (previous_mode, _) => some (previous_mode, current_mode)

/-- `heaters[0].mode` of the persisted file contents, when it parses. -/
def fileMode : FileState → Option Json
  | .stored j => getHeaterMode j
  | _ => none

/-- The transition state machine of the spec (`evaluate_transition`),
realised inline by the `if/elif/else` on lines 85-91. -/
inductive Transition where
  | TURNED_ON
  | TURNED_OFF
  | NO_CHANGE
  deriving DecidableEq

/-- `evaluate_transition(previous_mode, current_mode)` over integers, read
off the branch structure of lines 85-91. -/
def evaluate_transition (previous_mode current_mode : Int) : Transition :=
  if previous_mode == 0 && current_mode == 1 then .TURNED_ON
  else if previous_mode == 1 && current_mode == 0 then .TURNED_OFF
  else .NO_CHANGE

/-! ## Concrete fixtures used by witnesses and counterexamples -/

/-- A status record whose heater mode is 0 (OFF). -/
def recOff : Json :=
  .obj [("pool_spa_selection", .num 0),
        ("heaters", .arr [.obj [("heater_number", .num 1), ("mode", .num 0)]]),
        ("temperature", .num 22)]

/-- A status record whose heater mode is 1 (ON). -/
def recOn : Json :=
  .obj [("pool_spa_selection", .num 0),
        ("heaters", .arr [.obj [("heater_number", .num 1), ("mode", .num 1)]]),
        ("temperature", .num 22)]

/-- A second OFF record, differing from `recOff` everywhere but the mode. -/
def recOff2 : Json :=
  .obj [("heaters", .arr [.obj [("mode", .num 0), ("set_temperature", .num 28)]]),
        ("note", .str "other payload")]

/-- A second ON record, differing from `recOn` everywhere but the mode. -/
def recOn2 : Json :=
  .obj [("heaters", .arr [.obj [("mode", .num 1), ("set_temperature", .num 28)]]),
        ("note", .str "other payload")]

/-- A concrete configuration. -/
def cfg0 : Config := ⟨"code123", "owner@example.com", "sg-key"⟩

/-- A concrete clock reading. -/
def t0 : UtcTime := ⟨2026, 10, 12, 8, 30, 0⟩

/-- A run whose status fetch fails (e.g. HTTP 500). -/
def envFetchFail : Env := ⟨none, true, t0⟩

/-- A run that fetches the ON record and whose email send would succeed. -/
def envOnOk : Env := ⟨some recOn, true, t0⟩

/-- A run that fetches the ON record but whose email send fails. -/
def envOnSendFail : Env := ⟨some recOn, false, t0⟩

/-- A run that fetches the OFF record; email send would succeed. -/
def envOffOk : Env := ⟨some recOff, true, t0⟩

/-- A run that fetches the second ON record; email send would succeed. -/
def envOn2Ok : Env := ⟨some recOn2, true, t0⟩

/-- An environment with no variables set. -/
def osEnvEmpty : String → Option String := fun _ => none

/-- The alert message produced by the `envOnOk` run from `recOff`. -/
def msgOn : EmailMessage := send_email_alert cfg0 t0 (some recOff) recOn

/-! ## Helper lemmas shared by the claim theorems -/

/-- No JSON value compares Python-equal to both `0` and `1`. -/
theorem pyEqInt_not_both (m : Json) : (pyEqInt m 0 && pyEqInt m 1) = false := by
  cases m with
  | bool b => cases b <;> rfl
  | num n =>
      simp only [pyEqInt, Bool.and_eq_false_iff, beq_eq_false_iff_ne, ne_eq]
      omega
  | _ => rfl

/-- A run that ends with exit status 0 persisted the fetched record. -/
theorem main_ok_file (cfg : Config) (env : Env) (file : FileState) (c : Json)
    (hf : env.fetchResult = some c)
    (hok : (main cfg env file).result = Except.ok ()) :
    (main cfg env file).file = FileState.stored c := by
  cases hm : getHeaterMode c with
  | none => simp [main, hf, hm] at hok
  | some cm =>
    cases hl : load_previous_state file with
    | error e => simp [main, hf, hm, hl] at hok
    | ok pr =>
      obtain ⟨pm, ps⟩ := pr
      by_cases hcond : (pyEqInt pm 0 && pyEqInt cm 1) = true
      · cases hso : env.sendOk
        · simp [main, hf, hm, hl, hcond, hso] at hok
        · simp [main, hf, hm, hl, hcond, hso]
      · simp [main, hf, hm, hl, hcond]

/-- A run that ends with exit status 0 extracted a heater mode from the
fetched record. -/
theorem main_ok_mode (cfg : Config) (env : Env) (file : FileState) (c : Json)
    (hf : env.fetchResult = some c)
    (hok : (main cfg env file).result = Except.ok ()) :
    ∃ m, getHeaterMode c = some m := by
  cases hm : getHeaterMode c with
  | none => simp [main, hf, hm] at hok
  | some m => exact ⟨m, rfl⟩

/-! ## Claim theorems -/

/-- C1: the run posts a notification email if and only if the comparison is
reached with `previous_mode == 0` and `current_mode == 1`, and in that case
it posts exactly one email; every other run posts none. -/
theorem notification_iff_turned_on (cfg : Config) (env : Env) (file : FileState) :
    (main cfg env file).emails.length =
      (match runModes env file with
       | some (p, c) => if pyEqInt p 0 && pyEqInt c 1 then 1 else 0
       | none => 0) := by
  cases hf : env.fetchResult with
  | none => simp [main, runModes, hf]
  | some cs =>
    cases hm : getHeaterMode cs with
    | none => simp [main, runModes, hf, hm]
    | some cm =>
      cases hl : load_previous_state file with
      | error e => simp [main, runModes, hf, hm, hl]
      | ok pr =>
        obtain ⟨pm, ps⟩ := pr
        by_cases hcond : (pyEqInt pm 0 && pyEqInt cm 1) = true
        · cases hso : env.sendOk <;>
            simp [main, runModes, hf, hm, hl, hcond, hso]
        · simp [main, runModes, hf, hm, hl, hcond]

/-- C2: `evaluate_transition` yields `TURNED_ON` exactly on `(0, 1)`,
`TURNED_OFF` exactly on `(1, 0)`, and `NO_CHANGE` on every other pair of
integers (including `previous_mode = -1` and equal modes); and the
notification condition of `main` on integer modes is exactly `TURNED_ON`. -/
theorem evaluate_transition_spec (p c : Int) :
    (evaluate_transition p c = Transition.TURNED_ON ↔ p = 0 ∧ c = 1) ∧
    (evaluate_transition p c = Transition.TURNED_OFF ↔ p = 1 ∧ c = 0) ∧
    (evaluate_transition p c = Transition.NO_CHANGE ↔
      ¬(p = 0 ∧ c = 1) ∧ ¬(p = 1 ∧ c = 0)) ∧
    ((pyEqInt (Json.num p) 0 && pyEqInt (Json.num c) 1) = true ↔
      evaluate_transition p c = Transition.TURNED_ON) := by
  unfold evaluate_transition
  by_cases h1 : p = 0 ∧ c = 1
  · obtain ⟨hp, hc⟩ := h1
    subst hp; subst hc
    refine ⟨by simp, by simp, by simp, by simp [pyEqInt]⟩
  · by_cases h2 : p = 1 ∧ c = 0
    · obtain ⟨hp, hc⟩ := h2
      subst hp; subst hc
      refine ⟨by simp, by simp, by simp, by simp [pyEqInt]⟩
    · have hb1 : (p == 0 && c == 1) = false := by
        simp only [Bool.and_eq_false_iff, beq_eq_false_iff_ne, ne_eq]
        tauto
      have hb2 : (p == 1 && c == 0) = false := by
        simp only [Bool.and_eq_false_iff, beq_eq_false_iff_ne, ne_eq]
        tauto
      refine ⟨by simp [hb1, hb2, h1], by simp [hb1, hb2, h2],
        by simp [hb1, hb2, h1, h2], by simp [pyEqInt, hb1, hb2]⟩

/-- C3: a run that aborts with an error (failed fetch, failed parse of the
state file, failed mode extraction, or failed email send) leaves the state
file exactly as it was before the run. -/
theorem error_leaves_file_unchanged (cfg : Config) (env : Env) (file : FileState)
    (e : RunError) (h : (main cfg env file).result = Except.error e) :
    (main cfg env file).file = file := by
  cases hf : env.fetchResult with
  | none => simp [main, hf]
  | some cs =>
    cases hm : getHeaterMode cs with
    | none => simp [main, hf, hm]
    | some cm =>
      cases hl : load_previous_state file with
      | error e2 => simp [main, hf, hm, hl]
      | ok pr =>
        obtain ⟨pm, ps⟩ := pr
        by_cases hcond : (pyEqInt pm 0 && pyEqInt cm 1) = true
        · cases hso : env.sendOk
          · simp [main, hf, hm, hl, hcond, hso]
          · simp [main, hf, hm, hl, hcond, hso] at h
        · simp [main, hf, hm, hl, hcond] at h

/-- C3 witness: a fetch failure (HTTP 500) aborts the run and leaves the
stored OFF record untouched. -/
theorem error_leaves_file_unchanged_witness :
    (main cfg0 envFetchFail (FileState.stored recOff)).result =
      Except.error RunError.fetchError ∧
    (main cfg0 envFetchFail (FileState.stored recOff)).file =
      FileState.stored recOff :=
  ⟨rfl, error_leaves_file_unchanged cfg0 envFetchFail (FileState.stored recOff)
    RunError.fetchError rfl⟩

/-- C4 counterexample: the status fetch succeeds (returning the ON record),
yet because the subsequent email send fails the run aborts before
`persist_state`, and the file keeps the old record whose mode is 0, not the
fetched mode 1. -/
theorem fetch_success_persist_counterexample :
    envOnSendFail.fetchResult = some recOn ∧
    getHeaterMode recOn = some (Json.num 1) ∧
    (main cfg0 envOnSendFail (FileState.stored recOff)).file =
      FileState.stored recOff ∧
    fileMode (main cfg0 envOnSendFail (FileState.stored recOff)).file =
      some (Json.num 0) ∧
    some (Json.num 0) ≠ some (Json.num 1) := by
  refine ⟨rfl, rfl, rfl, rfl, by simp⟩

/-- C4 (amended): on every run that completes successfully the current
record is written to the state file, overwriting its previous content and
independent of the transition outcome, so the persisted `heaters[0].mode`
equals the mode fetched on that run. -/
theorem persist_on_success (cfg : Config) (env : Env) (file : FileState) (c : Json)
    (hf : env.fetchResult = some c)
    (hok : (main cfg env file).result = Except.ok ()) :
    (main cfg env file).file = FileState.stored c ∧
    fileMode (main cfg env file).file = getHeaterMode c := by
  have h1 := main_ok_file cfg env file c hf hok
  exact ⟨h1, by rw [h1]; rfl⟩

/-- C4 witness: a successful no-change run rewrites the file with the
fetched record. -/
theorem persist_on_success_witness :
    (main cfg0 envOffOk (FileState.stored recOff)).result = Except.ok () ∧
    (main cfg0 envOffOk (FileState.stored recOff)).file = FileState.stored recOff ∧
    fileMode (main cfg0 envOffOk (FileState.stored recOff)).file =
      getHeaterMode recOff := by
  have h := persist_on_success cfg0 envOffOk (FileState.stored recOff) recOff rfl rfl
  exact ⟨rfl, h.1, h.2⟩

/-- C5: loading the previous state yields the stored record and its
`heaters[0].mode` when the file holds a parsed record with that mode, yields
the sentinel `(-1, None)` without error when the file is missing or empty,
and on such a first run the program sends no notification regardless of the
fetched mode. -/
theorem load_previous_state_spec :
    (∀ j m, getHeaterMode j = some m →
        load_previous_state (FileState.stored j) = Except.ok (m, some j)) ∧
    load_previous_state FileState.missing = Except.ok (Json.num (-1), none) ∧
    load_previous_state FileState.empty = Except.ok (Json.num (-1), none) ∧
    (∀ cfg env file, (file = FileState.missing ∨ file = FileState.empty) →
        (main cfg env file).emails = []) := by
  refine ⟨?_, rfl, rfl, ?_⟩
  · intro j m hm
    simp [load_previous_state, hm]
  · intro cfg env file hfile
    cases hf : env.fetchResult with
    | none => simp [main, hf]
    | some cs =>
      cases hm : getHeaterMode cs with
      | none => simp [main, hf, hm]
      | some cm =>
        rcases hfile with rfl | rfl <;>
          simp [main, hf, hm, load_previous_state, pyEqInt]

/-- C5 witness: a stored OFF record loads as `(0, record)`, and a first run
whose fetch returns the ON record still sends nothing. -/
theorem load_previous_state_spec_witness :
    load_previous_state (FileState.stored recOff) =
      Except.ok (Json.num 0, some recOff) ∧
    (main cfg0 envOnOk FileState.missing).emails = [] :=
  ⟨load_previous_state_spec.1 recOff (Json.num 0) rfl,
   load_previous_state_spec.2.2.2 cfg0 envOnOk FileState.missing (Or.inl rfl)⟩

/-- C6: after a successful run, a second run whose fetched record has the
same `heaters[0].mode` sends no notification, because the second run's
previous mode equals its current mode. -/
theorem no_notification_when_unchanged (cfg1 cfg2 : Config) (env1 env2 : Env)
    (file : FileState) (c1 c2 : Json)
    (h1 : env1.fetchResult = some c1)
    (hok : (main cfg1 env1 file).result = Except.ok ())
    (h2 : env2.fetchResult = some c2)
    (hmode : getHeaterMode c2 = getHeaterMode c1) :
    (main cfg2 env2 (main cfg1 env1 file).file).emails = [] := by
  rw [main_ok_file cfg1 env1 file c1 h1 hok]
  obtain ⟨m, hm⟩ := main_ok_mode cfg1 env1 file c1 h1 hok
  rw [hm] at hmode
  simp [main, h2, hmode, load_previous_state, hm, pyEqInt_not_both m]

/-- C6 witness: a first run observes mode 0 and succeeds; a second run that
fetches the same record sends no email. -/
theorem no_notification_when_unchanged_witness :
    (main cfg0 envOffOk FileState.missing).result = Except.ok () ∧
    (main cfg0 envOffOk (main cfg0 envOffOk FileState.missing).file).emails = [] :=
  ⟨rfl, no_notification_when_unchanged cfg0 cfg0 envOffOk envOffOk
    FileState.missing recOff recOff rfl rfl rfl rfl⟩

/-- C7: the send/no-send decision is a function of the two heater modes
alone: two runs whose previous records and whose current records agree on
`heaters[0].mode` (but may differ everywhere else, as may the configuration
and the clock) make the same number of outbound email requests. -/
theorem send_decision_depends_only_on_modes
    (cfg cfg2 : Config) (env env2 : Env) (p p2 c c2 : Json)
    (hf : env.fetchResult = some c) (hf2 : env2.fetchResult = some c2)
    (hp : getHeaterMode p = getHeaterMode p2)
    (hc : getHeaterMode c = getHeaterMode c2) :
    (main cfg env (FileState.stored p)).emails.length =
      (main cfg2 env2 (FileState.stored p2)).emails.length := by
  cases hcm : getHeaterMode c with
  | none =>
    have hcm2 : getHeaterMode c2 = none := by rw [← hc]; exact hcm
    simp [main, hf, hf2, hcm, hcm2]
  | some cm =>
    have hcm2 : getHeaterMode c2 = some cm := by rw [← hc]; exact hcm
    cases hpm : getHeaterMode p with
    | none =>
      have hpm2 : getHeaterMode p2 = none := by rw [← hp]; exact hpm
      simp [main, hf, hf2, hcm, hcm2, load_previous_state, hpm, hpm2]
    | some pm =>
      have hpm2 : getHeaterMode p2 = some pm := by rw [← hp]; exact hpm
      by_cases hcond : (pyEqInt pm 0 && pyEqInt cm 1) = true
      · cases hso : env.sendOk <;> cases hso2 : env2.sendOk <;>
          simp [main, hf, hf2, hcm, hcm2, load_previous_state, hpm, hpm2,
            hcond, hso, hso2]
      · simp [main, hf, hf2, hcm, hcm2, load_previous_state, hpm, hpm2, hcond]

/-- C7 witness: two runs over records that agree only on the two modes (both
a 0 → 1 transition) make the same number of email requests. -/
theorem send_decision_depends_only_on_modes_witness :
    getHeaterMode recOff = getHeaterMode recOff2 ∧
    getHeaterMode recOn = getHeaterMode recOn2 ∧
    (main cfg0 envOnOk (FileState.stored recOff)).emails.length =
      (main cfg0 envOn2Ok (FileState.stored recOff2)).emails.length :=
  ⟨rfl, rfl, send_decision_depends_only_on_modes cfg0 cfg0 envOnOk envOn2Ok
    recOff recOff2 recOn recOn2 rfl rfl rfl rfl⟩

/-- C8: the alert message is addressed to the configured recipient and its
plaintext body contains the UTC timestamp and the pretty-printed JSON of the
previous and current records; and a run that reaches the comparison with
`previous_mode == 0` and `current_mode == 1` makes exactly one outbound
email request, namely that message. -/
theorem alert_message_spec :
    (∀ cfg now prev cur,
        (send_email_alert cfg now prev cur).toAddr = cfg.emailTo ∧
        ∃ s1 s2 s3, (send_email_alert cfg now prev cur).body =
          s1 ++ strftimeUTC now ++ s2 ++ dumpsOpt prev ++ s3 ++ dumps cur) ∧
    (∀ cfg env file cur cm pm ps,
        env.fetchResult = some cur →
        getHeaterMode cur = some cm →
        load_previous_state file = Except.ok (pm, ps) →
        (pyEqInt pm 0 && pyEqInt cm 1) = true →
        (main cfg env file).emails = [send_email_alert cfg env.now ps cur]) := by
  constructor
  · intro cfg now prev cur
    exact ⟨rfl, "Pool gas heater has turned ON at ",
      "\n\n=== PREVIOUS STATE (Heater OFF) ===\n",
      "\n\n=== CURRENT STATE (Heater ON) ===\n", rfl⟩
  · intro cfg env file cur cm pm ps hf hm hl hcond
    cases hso : env.sendOk <;> simp [main, hf, hm, hl, hcond, hso]

/-- C8 witness: the 0 → 1 run from the stored OFF record sends exactly the
alert message, addressed to the configured recipient. -/
theorem alert_message_spec_witness :
    (send_email_alert cfg0 t0 (some recOff) recOn).toAddr = cfg0.emailTo ∧
    (main cfg0 envOnOk (FileState.stored recOff)).emails =
      [send_email_alert cfg0 envOnOk.now (some recOff) recOn] :=
  ⟨(alert_message_spec.1 cfg0 t0 (some recOff) recOn).1,
   alert_message_spec.2 cfg0 envOnOk (FileState.stored recOff) recOn
     (Json.num 1) (Json.num 0) (some recOff) rfl rfl rfl rfl⟩

/-- C9: if any of the three required environment variables is absent the
process fails at startup with a configuration error, before any fetch,
comparison, notification or state write: the outcome is the error, the file
is unchanged, and no email request is made, whatever the network would have
answered. -/
theorem config_fail_fast (osEnv : String → Option String) (env : Env)
    (file : FileState)
    (h : osEnv "POOL_API_CODE" = none ∨ osEnv "EMAIL_TO" = none ∨
      osEnv "SENDGRID_API_KEY" = none) :
    program osEnv env file = ⟨Except.error RunError.configError, file, []⟩ := by
  have hcfg : loadConfig osEnv = none := by
    unfold loadConfig
    cases hA : osEnv "POOL_API_CODE" <;> cases hB : osEnv "EMAIL_TO" <;>
      cases hC : osEnv "SENDGRID_API_KEY" <;> simp_all
  simp [program, hcfg]

/-- C9 witness: with no environment variables set, the process aborts with
the configuration error and touches nothing. -/
theorem config_fail_fast_witness :
    program osEnvEmpty envOnOk (FileState.stored recOff) =
      ⟨Except.error RunError.configError, FileState.stored recOff, []⟩ :=
  config_fail_fast osEnvEmpty envOnOk (FileState.stored recOff) (Or.inl rfl)

/-- C10: every email the run sends was built with an actual previous record,
never the `None` sentinel: the state file held a parsed record, and the body
therefore contains the JSON dumps of two real records. -/
theorem alert_previous_never_none (cfg : Config) (env : Env) (file : FileState)
    (msg : EmailMessage) (h : msg ∈ (main cfg env file).emails) :
    ∃ prev cur, file = FileState.stored prev ∧ env.fetchResult = some cur ∧
      msg = send_email_alert cfg env.now (some prev) cur ∧
      ∃ s1 s2, msg.body = s1 ++ dumps prev ++ s2 ++ dumps cur := by
  cases hf : env.fetchResult with
  | none => simp [main, hf] at h
  | some cur =>
    cases hm : getHeaterMode cur with
    | none => simp [main, hf, hm] at h
    | some cm =>
      cases file with
      | missing => simp [main, hf, hm, load_previous_state, pyEqInt] at h
      | empty => simp [main, hf, hm, load_previous_state, pyEqInt] at h
      | malformed => simp [main, hf, hm, load_previous_state] at h
      | stored prev =>
        cases hpm : getHeaterMode prev with
        | none => simp [main, hf, hm, load_previous_state, hpm] at h
        | some pm =>
          by_cases hcond : (pyEqInt pm 0 && pyEqInt cm 1) = true
          · have hmsg : msg = send_email_alert cfg env.now (some prev) cur := by
              cases hso : env.sendOk <;>
                simpa [main, hf, hm, load_previous_state, hpm, hcond, hso] using h
            refine ⟨prev, cur, rfl, rfl, hmsg, ?_⟩
            refine ⟨"Pool gas heater has turned ON at " ++ strftimeUTC env.now
                ++ "\n\n=== PREVIOUS STATE (Heater OFF) ===\n",
              "\n\n=== CURRENT STATE (Heater ON) ===\n", ?_⟩
            rw [hmsg]
            simp [send_email_alert, dumpsOpt, String.append_assoc]
          · simp [main, hf, hm, load_previous_state, hpm, hcond] at h

/-- C10 witness: the message sent by the 0 → 1 run comes with a real stored
previous record and both JSON payloads in its body. -/
theorem alert_previous_never_none_witness :
    ∃ prev cur, FileState.stored recOff = FileState.stored prev ∧
      envOnOk.fetchResult = some cur ∧
      msgOn = send_email_alert cfg0 envOnOk.now (some prev) cur ∧
      ∃ s1 s2, msgOn.body = s1 ++ dumps prev ++ s2 ++ dumps cur :=
  alert_previous_never_none cfg0 envOnOk (FileState.stored recOff) msgOn
    (List.Mem.head _)

end PoolMonitor
